import Mathlib

/-!
Verification development for the reconXhunter OSINT multi-platform search
orchestration engine (`src/Javascript/os-int.js`, class `OSINTEngine`,
with the server-side platform dispatcher of the Express backend).

The engine is embedded shallowly:

* JavaScript exceptions are `Except String`.
* The DOM progress bar writes performed by `updateProgress`, the `fetch`
  call issued by `searchPlatform`, and the `setTimeout`-based `delay` are
  recorded as an explicit event trace (`Event`); real wall-clock time and
  the DOM itself are not modelled.
* Each platform request's network outcome (the resolution of `fetch` and
  `response.json()`) is an input to the model (`FetchOutcome`), supplied
  per loop iteration by an environment `Nat → FetchOutcome`.
* JavaScript objects become structures; a JS field that is `null`,
  `undefined` or absent is `Option.none`.  Result timestamps
  (`new Date().toISOString()`) are wall-clock reads and are omitted.
* JS truthiness tests on response fields are modelled as `Option.isSome`
  or `Bool` fields, as appropriate for each field.
-/

/-- Status strings attached to search results; the source uses exactly the
string literals `'found'`, `'not-found'` and `'error'`. -/
inductive ResultStatus where
  | found
  | notFound
  | error
deriving DecidableEq, BEq, Repr

/-- The `data.data` object of a Twitter API response; `formatTwitterResult`
reads `data.data.username`. -/
structure TwitterUser where
  username : String
deriving DecidableEq, Repr

/-- An element of the `items` array of a GitHub user-search response;
`formatGithubResult` reads `html_url` and `login`. -/
structure GithubItem where
  html_url : String
  login : String
deriving DecidableEq, Repr

/-- The JSON body handed to the result formatters (the value of
`await response.json()` in `searchPlatform`).  One structure covers the
fields inspected by all formatters; fields a given platform's response
does not carry keep their default, which models the JS `undefined`/falsy
reading of a missing field.  `query` and `qtype` model the `query` and
`type` echoed back by the server (`res.json({ ...result, query, type })`). -/
structure PlatformData where
  name : Option String := none
  spamScore : String := "undefined"
  data : Option TwitterUser := none
  total_count : Nat := 0
  items : List GithubItem := []
  contacts : Bool := false
  valid : Bool := false
  vpa : String := "undefined"
  found : Bool := false
  url : Option String := none
  description : Option String := none
  query : String := ""
  qtype : String := ""
deriving DecidableEq, Repr

/-- A normalized per-platform search result (the object shape pushed onto
`this.results`).  The `timestamp` field of the source is a wall-clock read
and is not modelled. -/
structure SearchResult where
  platform : String
  status : ResultStatus
  url : Option String
  description : String
  content : Option String
deriving DecidableEq, Repr

/-- The outcome of one `fetch('/api/search/' + platformKey, ...)` call as
seen by the client:  either the fetch promise rejects (network failure),
or a response arrives with its `ok` flag and numeric `status`, whose
`json()` body either parses to a `PlatformData` or rejects. -/
inductive FetchOutcome where
  | fetchError (msg : String)
  | httpResponse (ok : Bool) (status : Nat) (body : Except String PlatformData)

/-- Observable actions of one run: a progress update (`updateProgress`,
message and percent), the start of a platform adapter request (the `fetch`
in `searchPlatform`), and a rate-limit pause (`delay(ms)`). -/
inductive Event where
  | progress (message : String) (percent : Rat)
  | adapterCall (platform : String)
  | delay (ms : Nat)
deriving DecidableEq, Repr

/-- The mutable fields of an `OSINTEngine` instance (the `API_KEYS`
constant is never consulted by the modelled operations and is omitted). -/
structure EngineState where
  results : List SearchResult
  searchProgress : Rat
  totalPlatforms : Nat
  completedSearches : Nat
deriving Repr

/-- A freshly constructed engine (`new OSINTEngine()`). -/
def engineInit : EngineState :=
  { results := [], searchProgress := 0, totalPlatforms := 0, completedSearches := 0 }

/-- The HTML snippet produced by `generateFoundContent`; the per-platform
templates only interpolate the search type and query (whitespace inside
the HTML is normalized, which no property depends on). -/
def generateFoundContent (platform : String) (_data : PlatformData)
    (query qtype : String) : String :=
  match platform with
  | "Google" =>
      "<div class=\"found-content\"><h4>Search Results</h4><p>Multiple results found for "
        ++ qtype ++ ": " ++ query ++ "</p></div>"
  | "Facebook" =>
      "<div class=\"found-content\"><h4>Profile Found</h4><p>Facebook profile found for "
        ++ qtype ++ ": " ++ query ++ "</p></div>"
  | "Twitter" =>
      "<div class=\"found-content\"><h4>Account Located</h4><p>Twitter account found matching "
        ++ qtype ++ ": " ++ query ++ "</p></div>"
  | "Instagram" =>
      "<div class=\"found-content\"><h4>Instagram Profile</h4><p>Instagram account found for "
        ++ qtype ++ ": " ++ query ++ "</p></div>"
  | "LinkedIn" =>
      "<div class=\"found-content\"><h4>Professional Profile</h4><p>LinkedIn profile found for "
        ++ qtype ++ ": " ++ query ++ "</p></div>"
  | "GitHub" =>
      "<div class=\"found-content\"><h4>Developer Profile</h4><p>GitHub account found for "
        ++ qtype ++ ": " ++ query ++ "</p></div>"
  | "Reddit" =>
      "<div class=\"found-content\"><h4>Reddit User</h4><p>Reddit account found for "
        ++ qtype ++ ": " ++ query ++ "</p></div>"
  | "YouTube" =>
      "<div class=\"found-content\"><h4>YouTube Channel</h4><p>YouTube channel found for "
        ++ qtype ++ ": " ++ query ++ "</p></div>"
  | _ =>
      "<div class=\"found-content\"><h4>Results Found</h4><p>Information found on "
        ++ platform ++ " for " ++ qtype ++ ": " ++ query ++ "</p></div>"

/-- `formatTruecallerResult`: `data.name` truthy decides found/not-found. -/
def formatTruecallerResult (data : PlatformData) : SearchResult :=
  { platform := "TrueCaller",
    status := if data.name.isSome then .found else .notFound,
    url := none,
    description :=
      match data.name with
      | some n => "Name: " ++ n ++ ", Spam: " ++ data.spamScore
      | none => "No information found",
    content := some (generateFoundContent "TrueCaller" data data.query data.qtype) }

/-- `formatTwitterResult`: `data.data` truthy decides found/not-found. -/
def formatTwitterResult (data : PlatformData) : SearchResult :=
  match data.data with
  | some u =>
      { platform := "Twitter",
        status := .found,
        url := some ("https://twitter.com/" ++ u.username),
        description := "Twitter user found: @" ++ u.username,
        content := some (generateFoundContent "Twitter" data data.query data.qtype) }
  | none =>
      { platform := "Twitter",
        status := .notFound,
        url := none,
        description := "No Twitter account found",
        content := some (generateFoundContent "Twitter" data data.query data.qtype) }

/-- `formatGithubResult`.  When `data.total_count > 0` but `items` is empty
the source evaluates `data.items[0].login` and raises a `TypeError`, which
the embedding surfaces as `Except.error` (caught by `searchPlatform`). -/
def formatGithubResult (data : PlatformData) : Except String SearchResult :=
  if data.total_count > 0 then
    match data.items with
    | [] => Except.error "Cannot read properties of undefined (reading 'login')"
    | item :: _ =>
        Except.ok
          { platform := "GitHub",
            status := .found,
            url := some item.html_url,
            description := "GitHub user found: " ++ item.login,
            content := some (generateFoundContent "GitHub" data data.query data.qtype) }
  else
    Except.ok
      { platform := "GitHub",
        status := .notFound,
        url := (data.items.head?).map GithubItem.html_url,
        description := "No GitHub account found",
        content := some (generateFoundContent "GitHub" data data.query data.qtype) }

/-- `formatWhatsAppResult`: `data.contacts` truthy decides found/not-found. -/
def formatWhatsAppResult (data : PlatformData) : SearchResult :=
  { platform := "WhatsApp",
    status := if data.contacts then .found else .notFound,
    url := none,
    description := if data.contacts then "WhatsApp account exists" else "No WhatsApp account found",
    content := some (generateFoundContent "WhatsApp" data data.query data.qtype) }

/-- `formatUPIResult`: `data.valid` decides found/not-found. -/
def formatUPIResult (data : PlatformData) : SearchResult :=
  { platform := "UPI",
    status := if data.valid then .found else .notFound,
    url := none,
    description := if data.valid then "Valid UPI ID: " ++ data.vpa else "Invalid UPI handle",
    content := some (generateFoundContent "UPI" data data.query data.qtype) }

/-- `formatDefaultResult`: used for every platform key without a dedicated
formatter; `data.url || null` and `data.description || default` become
`Option` values. -/
def formatDefaultResult (platform : String) (data : PlatformData)
    (query qtype : String) : SearchResult :=
  { platform := platform,
    status := if data.found then .found else .notFound,
    url := data.url,
    description := data.description.getD ("Search completed on " ++ platform),
    content := some (generateFoundContent platform data query qtype) }

/-- `formatSearchResult`: dispatch on the platform key.  The result is an
`Except` because the GitHub formatter can raise. -/
def formatSearchResult (platformKey : String) (data : PlatformData)
    (query qtype : String) : Except String SearchResult :=
  match platformKey with
  | "truecaller" => Except.ok (formatTruecallerResult data)
  | "twitter" => Except.ok (formatTwitterResult data)
  | "github" => formatGithubResult data
  | "whatsapp" => Except.ok (formatWhatsAppResult data)
  | "upi" => Except.ok (formatUPIResult data)
  | _ => Except.ok (formatDefaultResult platformKey data query qtype)

/-- The body of the `try` block of `searchPlatform`: perform the fetch,
throw `HTTP error! status: N` on a non-ok response, parse the JSON body
and format it.  Every fault on this path is an `Except.error` carrying the
JS error message. -/
def searchPlatformTry (platformKey query qtype : String) (o : FetchOutcome) :
    Except String SearchResult :=
  match o with
  | .fetchError msg => Except.error msg
  | .httpResponse ok status body =>
      if !ok then Except.error ("HTTP error! status: " ++ toString status)
      else
        match body with
        | .error msg => Except.error msg
        | .ok data => formatSearchResult platformKey data query qtype

/-- The single result `searchPlatform` pushes for a platform: the formatted
result on success, or the catch block's error object
`{ platform, status: 'error', url: null, description: 'Error: ' + msg }`
(no `content` field) on any fault. -/
def platformResult (platformKey query qtype : String) (o : FetchOutcome) : SearchResult :=
  match searchPlatformTry platformKey query qtype o with
  | .ok r => r
  | .error msg =>
      { platform := platformKey, status := .error, url := none,
        description := "Error: " ++ msg, content := none }

/-- `searchPlatform`: issues the adapter request (recorded as an
`adapterCall` event), pushes exactly one result onto `this.results` —
formatted on success, the catch block's error result on any fault — and
returns that result.  The wrapping `try`/`catch` means no fault escapes,
so the embedding is a total function. -/
def searchPlatform (st : EngineState) (platformKey query qtype : String)
    (o : FetchOutcome) : EngineState × List Event × SearchResult :=
  ({ st with results := st.results ++ [platformResult platformKey query qtype o] },
   [Event.adapterCall platformKey],
   platformResult platformKey query qtype o)

/-- JS `String.prototype.trim`: strip leading and trailing whitespace. -/
def jsTrim (s : String) : String :=
  String.mk (((s.toList.dropWhile Char.isWhitespace).reverse.dropWhile
    Char.isWhitespace).reverse)

/-- The percent value `(completedSearches / totalPlatforms) * 100` computed
by the orchestration loop (JS number arithmetic on exact small rationals). -/
def pct (k n : Nat) : Rat :=
  ((k : Rat) / (n : Rat)) * 100

/-- The search types accepted by `performSearch`
(`['email', 'phone', 'username', 'name']`). -/
def validTypes : List String := ["email", "phone", "username", "name"]

/-- The `for (const platform of selectedPlatforms)` loop of
`performSearch`: per platform, emit the `Searching ...` progress event, run
`searchPlatform` (which itself cannot throw, making the loop's defensive
`catch` unreachable), increment `completedSearches`, emit the
`Searched k/n platforms` progress event, then `delay(1000)`.  `i` indexes
the environment with the iteration number. -/
def searchLoop (query qtype : String) (env : Nat → FetchOutcome) :
    List String → Nat → EngineState → EngineState × List Event
  | [], _, st => (st, [])
  | p :: rest, i, st =>
      let e1 := Event.progress ("Searching " ++ p ++ "...")
        (pct st.completedSearches st.totalPlatforms)
      let step := searchPlatform st p query qtype (env i)
      let st2 : EngineState :=
        { step.1 with completedSearches := step.1.completedSearches + 1 }
      let e2 := Event.progress
        ("Searched " ++ toString st2.completedSearches ++ "/"
          ++ toString st2.totalPlatforms ++ " platforms")
        (pct st2.completedSearches st2.totalPlatforms)
      let e3 := Event.delay 1000
      let tail := searchLoop query qtype env rest (i + 1) st2
      (tail.1, e1 :: step.2.1 ++ e2 :: e3 :: tail.2)

/-- `performSearch(query, type, selectedPlatforms)`: reset the engine
state, validate (throwing on an empty/whitespace query or an unsupported
type), emit the initial progress event, loop over the platforms, emit the
final progress event and return `this.results`.  The returned triple is
the final engine state, the emitted event trace, and the JS return value
(`Except.error` for a thrown validation error). -/
def performSearch (st : EngineState) (query qtype : String)
    (selectedPlatforms : List String) (env : Nat → FetchOutcome) :
    EngineState × List Event × Except String (List SearchResult) :=
  let st0 : EngineState :=
    { results := [], searchProgress := 0,
      totalPlatforms := selectedPlatforms.length, completedSearches := 0 }
  if query = "" ∨ jsTrim query = "" then
    (st0, [], Except.error "Search query cannot be empty")
  else if qtype = "" ∨ ¬ qtype ∈ validTypes then
    (st0, [], Except.error "Invalid search type")
  else
    let e0 := Event.progress "Initializing search..." 0
    let run := searchLoop query qtype env selectedPlatforms 0 st0
    (run.1, e0 :: run.2 ++ [Event.progress "Search completed!" 100],
     Except.ok run.1.results)

/-- The summary record computed by `getSearchStats`. -/
structure SearchStats where
  total : Nat
  found : Nat
  completed : Nat
deriving DecidableEq, Repr

/-- `getSearchStats`: totals from the engine state, `found` by filtering
`this.results` for `status === 'found'`. -/
def getSearchStats (st : EngineState) : SearchStats :=
  { total := st.totalPlatforms,
    found := (st.results.filter (fun r => r.status == ResultStatus.found)).length,
    completed := st.completedSearches }

/-- The character class `[^\s@]` of the email regex, restricted to the
whitespace test (the `@` exclusion is enforced by splitting at `@`). -/
def nonSpaceChar (c : Char) : Bool := !c.isWhitespace

/-- Whether a domain (as a character list) matches `[^\s@]+\.[^\s@]+`,
given it is nonempty and whitespace-free: it must contain a `.` that is
neither its first nor its last character. -/
def hasInnerDot (l : List Char) : Bool :=
  ((l.drop 1).dropLast).contains '.'

/-- Split a character list at every occurrence of `c` (the pieces between
separators, like JS `String.prototype.split`). -/
def splitAtChar (c : Char) : List Char → List (List Char)
  | [] => [[]]
  | a :: rest =>
      let r := splitAtChar c rest
      if a = c then [] :: r
      else
        match r with
        | [] => [[a]]
        | g :: gs => (a :: g) :: gs

/-- The email regex `^[^\s@]+@[^\s@]+\.[^\s@]+$` of `validateSearchInput`:
exactly one `@`, a nonempty whitespace-free local part, and a nonempty
whitespace-free domain containing an inner dot. -/
def emailRegexTest (s : String) : Bool :=
  match splitAtChar '@' s.toList with
  | [localPart, domain] =>
      decide (localPart ≠ []) && localPart.all nonSpaceChar
        && decide (domain ≠ []) && domain.all nonSpaceChar && hasInnerDot domain
  | _ => false

/-- The phone regex `^\+?[\d\s-]{10,}$` of `validateSearchInput`: an
optional leading `+` followed by at least ten characters, each a digit,
whitespace, or `-`. -/
def phoneRegexTest (s : String) : Bool :=
  let t :=
    match s.toList with
    | '+' :: rest => rest
    | l => l
  decide (t.length ≥ 10) && t.all (fun c => c.isDigit || c.isWhitespace || c = '-')

/-- `validateSearchInput(query, type)`: throws a descriptive error when the
type-specific format check fails, otherwise returns `true`.  (This method
is defined on `OSINTEngine` but `performSearch` never calls it.) -/
def validateSearchInput (query qtype : String) : Except String Bool :=
  match qtype with
  | "email" =>
      if !emailRegexTest query then Except.error "Invalid email format" else Except.ok true
  | "phone" =>
      if !phoneRegexTest query then Except.error "Invalid phone number format"
      else Except.ok true
  | "username" =>
      if query.length < 3 then Except.error "Username must be at least 3 characters long"
      else Except.ok true
  | "name" =>
      if query.length < 2 then Except.error "Name must be at least 2 characters long"
      else Except.ok true
  | _ => Except.ok true

deriving instance DecidableEq for Except

/-- A successful HTTP response carrying a parsed JSON body. -/
def okOutcome (d : PlatformData) : FetchOutcome :=
  FetchOutcome.httpResponse true 200 (Except.ok d)

/-- The server's reply for a platform key missing from
`handlePlatformSearch`'s switch (the Express backend): the thrown
`Platform ... not supported` error is caught by the
`/api/search/:platform` handler, which replies with HTTP status 500, so
the client's fetch resolves with `ok = false` and `status = 500` and the
body is never read. -/
def unknownPlatformOutcome : FetchOutcome :=
  FetchOutcome.httpResponse false 500 (Except.error "response body not read")

/-- A GitHub user-search body with one hit, as echoed by the backend for
the query `octocat`. -/
def githubFoundData : PlatformData :=
  { total_count := 1,
    items := [{ html_url := "https://github.com/octocat", login := "octocat" }],
    query := "octocat", qtype := "username" }

/-- A Twitter body whose `data` object is present. -/
def twitterFoundData : PlatformData :=
  { data := some { username := "jack" }, query := "jack", qtype := "username" }

/-- A backend body for a default-formatted platform with `found: false`. -/
def redditNotFoundData : PlatformData :=
  { found := false, query := "octocat", qtype := "username" }

/-- An environment for the three-platform example run: GitHub found,
Reddit not found, and every later index an unknown-platform 500. -/
def envMixed : Nat → FetchOutcome
  | 0 => okOutcome githubFoundData
  | 1 => okOutcome redditNotFoundData
  | _ => unknownPlatformOutcome

/-- An environment where every platform answers like the GitHub hit. -/
def envGithubFound : Nat → FetchOutcome := fun _ => okOutcome githubFoundData

/-- An environment where every platform answers like the Twitter hit. -/
def envTwitterFound : Nat → FetchOutcome := fun _ => okOutcome twitterFoundData

/-- An environment where every fetch resolves to the unknown-platform 500. -/
def envUnknown : Nat → FetchOutcome := fun _ => unknownPlatformOutcome

/-- The result list a run produces: one `platformResult` per platform, in
input order, with the environment consumed positionally from index `i`. -/
def runResults (query qtype : String) (env : Nat → FetchOutcome) :
    List String → Nat → List SearchResult
  | [], _ => []
  | p :: rest, i =>
      platformResult p query qtype (env i) :: runResults query qtype env rest (i + 1)

/-- The event trace the loop emits, starting with `k` platforms already
completed out of `n`: per platform a `Searching ...` progress event, the
adapter call, a `Searched k/n platforms` progress event, and the fixed
delay. -/
def runTrace : List String → Nat → Nat → List Event
  | [], _, _ => []
  | p :: rest, k, n =>
      Event.progress ("Searching " ++ p ++ "...") (pct k n)
        :: Event.adapterCall p
        :: Event.progress
            ("Searched " ++ toString (k + 1) ++ "/" ++ toString n ++ " platforms")
            (pct (k + 1) n)
        :: Event.delay 1000
        :: runTrace rest (k + 1) n

/-- Recognizer for `delay` events. -/
def isDelay : Event → Bool
  | .delay _ => true
  | _ => false

/-- Recognizer for `adapterCall` events. -/
def isAdapterCall : Event → Bool
  | .adapterCall _ => true
  | _ => false

/-- The strict alternation adapter-call/delay the loop produces: each
platform's adapter request is followed by exactly one fixed delay,
including the final platform's. -/
def pacedCalls : List String → List Event
  | [] => []
  | p :: rest => Event.adapterCall p :: Event.delay 1000 :: pacedCalls rest

/-- Whether an event is an adapter call or a delay (the pacing-relevant
events). -/
def isPaced (e : Event) : Bool := isAdapterCall e || isDelay e

/-- The percent values carried by the progress events of a trace. -/
def progressPercents (evs : List Event) : List Rat :=
  evs.filterMap fun e =>
    match e with
    | .progress _ p => some p
    | _ => none

/-- The percent values the loop emits, two per platform: before the
platform at `k/n * 100` and after it at `(k+1)/n * 100`. -/
def percList : List String → Nat → Nat → List Rat
  | [], _, _ => []
  | _ :: rest, k, n => pct k n :: pct (k + 1) n :: percList rest (k + 1) n

/-- The canonical display name the dedicated formatters attach to the
`platform` field of a successfully formatted result; identity for every
platform key handled by `formatDefaultResult`. -/
def displayName : String → String
  | "truecaller" => "TrueCaller"
  | "twitter" => "Twitter"
  | "github" => "GitHub"
  | "whatsapp" => "WhatsApp"
  | "upi" => "UPI"
  | p => p

/-- An environment whose second platform request hits the backend's
unknown-platform 500 path. -/
def envWithUnknown : Nat → FetchOutcome
  | 0 => okOutcome githubFoundData
  | 1 => unknownPlatformOutcome
  | _ => okOutcome redditNotFoundData

/-- The number of delay events after the last adapter call of a trace. -/
def delaysAfterLastAdapterCall (evs : List Event) : Nat :=
  ((evs.reverse.takeWhile (fun e => !isAdapterCall e)).filter isDelay).length

/-- The number of delay events before the first adapter call of a trace. -/
def delaysBeforeFirstAdapterCall (evs : List Event) : Nat :=
  ((evs.takeWhile (fun e => !isAdapterCall e)).filter isDelay).length

/-- The error record a run stores for an unknown platform (used by the
concrete witnesses below). -/
def unknownErrorResult : SearchResult :=
  { platform := "unknown-platform", status := ResultStatus.error, url := none,
    description := "Error: HTTP error! status: 500", content := none }

/-- An engine carrying stale state from a previous run. -/
def dirtyState : EngineState :=
  { results := [{ platform := "stale", status := ResultStatus.found, url := none,
                  description := "stale", content := none }],
    searchProgress := 50, totalPlatforms := 7, completedSearches := 7 }

/-! ### Theorems -/

example : jsTrim "  a b  " = "a b" := by decide
example : jsTrim "" = "" := rfl
example : emailRegexTest "user@mail.com" = true := by decide
example : emailRegexTest "not-an-email" = false := by decide
example : phoneRegexTest "+91 12345-67890" = true := by decide
example : phoneRegexTest "123" = false := by decide
example : validateSearchInput "ab" "username" = Except.error "Username must be at least 3 characters long" := by decide

example :
    (performSearch engineInit "jack" "username" ["twitter"] envTwitterFound).2.2.toOption.map
      (fun rs => rs.map SearchResult.platform) = some ["Twitter"] := by decide

example :
    (performSearch engineInit "octocat" "username" ["unknown-platform"] envUnknown).2.2.toOption.map
      (fun rs => rs.map SearchResult.description) = some ["Error: HTTP error! status: 500"] := by
  decide

example :
    ((performSearch engineInit "octocat" "username" ["github"] envGithubFound).2.1.filter
      (fun e => match e with | Event.delay _ => true | _ => false)).length = 1 := by decide

example :
    Event.adapterCall "github" ∈
      (performSearch engineInit "not-an-email" "email" ["github"] envGithubFound).2.1 := by decide

example :
    getSearchStats (performSearch engineInit "octocat" "username"
      ["github", "reddit", "unknown-platform"] envMixed).1 =
      { total := 3, found := 1, completed := 3 } := by decide

theorem searchLoop_eq (query qtype : String) (env : Nat → FetchOutcome)
    (ps : List String) (i : Nat) (st : EngineState) :
    searchLoop query qtype env ps i st =
      ({ st with
          results := st.results ++ runResults query qtype env ps i,
          completedSearches := st.completedSearches + ps.length },
       runTrace ps st.completedSearches st.totalPlatforms) := by
  induction ps generalizing i st with
  | nil => simp [searchLoop, runResults, runTrace]
  | cons p rest ih =>
      simp only [searchLoop, searchPlatform, runResults, runTrace, ih, List.length_cons,
        List.cons_append, List.nil_append, List.singleton_append, List.append_assoc,
        Prod.mk.injEq, EngineState.mk.injEq]
      refine ⟨⟨trivial, trivial, trivial, ?_⟩, trivial⟩
      omega

theorem performSearch_run_eq (st : EngineState) (query qtype : String)
    (ps : List String) (env : Nat → FetchOutcome)
    (hq : jsTrim query ≠ "") (ht : qtype ∈ validTypes) :
    performSearch st query qtype ps env =
      ({ results := runResults query qtype env ps 0, searchProgress := 0,
         totalPlatforms := ps.length, completedSearches := ps.length },
       Event.progress "Initializing search..." 0
         :: runTrace ps 0 ps.length ++ [Event.progress "Search completed!" 100],
       Except.ok (runResults query qtype env ps 0)) := by
  have hq' : ¬ (query = "" ∨ jsTrim query = "") := by
    rintro (h | h)
    · exact hq (by simp [h, jsTrim])
    · exact hq h
  have ht' : ¬ (qtype = "" ∨ ¬ qtype ∈ validTypes) := by
    rintro (h | h)
    · subst h; revert ht; decide
    · exact h ht
  simp only [performSearch, if_neg hq', if_neg ht', searchLoop_eq]
  simp

theorem runResults_length (q t : String) (env : Nat → FetchOutcome)
    (ps : List String) (i : Nat) :
    (runResults q t env ps i).length = ps.length := by
  induction ps generalizing i with
  | nil => rfl
  | cons p rest ih => simp [runResults, ih]

theorem runResults_getElem (q t : String) (env : Nat → FetchOutcome)
    (ps : List String) (s j : Nat) :
    (runResults q t env ps s)[j]? =
      (ps[j]?).map fun p => platformResult p q t (env (s + j)) := by
  induction ps generalizing s j with
  | nil => simp [runResults]
  | cons p rest ih =>
      cases j with
      | zero => simp [runResults]
      | succ j =>
          simp only [runResults, List.getElem?_cons_succ, ih]
          have h : s + 1 + j = s + (j + 1) := by omega
          rw [h]

@[simp] theorem isDelay_progress (m : String) (r : Rat) :
    isDelay (Event.progress m r) = false := rfl

@[simp] theorem isDelay_adapterCall (p : String) :
    isDelay (Event.adapterCall p) = false := rfl

@[simp] theorem isDelay_delay (ms : Nat) : isDelay (Event.delay ms) = true := rfl

@[simp] theorem isPaced_progress (m : String) (r : Rat) :
    isPaced (Event.progress m r) = false := rfl

@[simp] theorem isPaced_adapterCall (p : String) :
    isPaced (Event.adapterCall p) = true := rfl

@[simp] theorem isPaced_delay (ms : Nat) : isPaced (Event.delay ms) = true := rfl

theorem runTrace_filter_paced (ps : List String) (k n : Nat) :
    (runTrace ps k n).filter isPaced = pacedCalls ps := by
  induction ps generalizing k with
  | nil => simp [runTrace, pacedCalls]
  | cons p rest ih =>
      simp only [runTrace, pacedCalls, List.filter_cons, isPaced_progress,
        isPaced_adapterCall, isPaced_delay, if_true, if_false, ih]
      simp

theorem runTrace_delay_count (ps : List String) (k n : Nat) :
    ((runTrace ps k n).filter isDelay).length = ps.length := by
  induction ps generalizing k with
  | nil => simp [runTrace]
  | cons p rest ih => simp [runTrace, isDelay, List.filter, ih]

theorem runTrace_percents (ps : List String) (k n : Nat) :
    progressPercents (runTrace ps k n) = percList ps k n := by
  induction ps generalizing k with
  | nil => simp [runTrace, percList, progressPercents]
  | cons p rest ih =>
      simpa [runTrace, percList, progressPercents] using ih (k + 1)

theorem pct_zero (n : Nat) : pct 0 n = 0 := by
  simp [pct]

theorem pct_mono (k n : Nat) : pct k n ≤ pct (k + 1) n := by
  unfold pct
  rcases Nat.eq_zero_or_pos n with hn | hn
  · subst hn; simp
  · have hn' : (0 : Rat) < n := by exact_mod_cast hn
    have h : ((k : Rat)) / n ≤ (((k + 1 : Nat)) : Rat) / n := by
      gcongr
      exact_mod_cast Nat.le_succ k
    exact mul_le_mul_of_nonneg_right (by exact_mod_cast h) (by norm_num)

theorem pct_le_100 (k n : Nat) (h : k ≤ n) : pct k n ≤ 100 := by
  unfold pct
  rcases Nat.eq_zero_or_pos n with hn | hn
  · subst hn; simp
  · have hn' : (0 : Rat) < n := by exact_mod_cast hn
    have h1 : ((k : Rat)) / n ≤ 1 := by
      rw [div_le_one hn']; exact_mod_cast h
    calc ((k : Rat) / n) * 100 ≤ 1 * 100 := by
          exact mul_le_mul_of_nonneg_right h1 (by norm_num)
      _ = 100 := by norm_num

theorem percList_chain_append (ps : List String) (k n : Nat) (h : k + ps.length ≤ n) :
    List.Chain' (fun a b => a ≤ b) (percList ps k n ++ [(100 : Rat)]) := by
  induction ps generalizing k with
  | nil =>
      simp [percList]
  | cons p rest ih =>
      simp only [percList, List.cons_append]
      refine List.chain'_cons.mpr ⟨pct_mono k n, ?_⟩
      refine List.chain'_cons'.mpr ⟨?_, ih (k + 1) (by simp at h ⊢; omega)⟩
      intro b hb
      cases rest with
      | nil =>
          simp [percList] at hb
          subst hb
          exact pct_le_100 (k + 1) n (by simp at h; omega)
      | cons p2 rest2 =>
          simp [percList] at hb
          subst hb
          exact le_refl _

theorem formatSearchResult_ok_platform {p : String} {d : PlatformData} {q t : String}
    {r : SearchResult} (h : formatSearchResult p d q t = Except.ok r) :
    r.platform = p ∨ r.platform = displayName p := by
  unfold formatSearchResult at h
  split at h
  · injection h with h; subst h; right; rfl
  · injection h with h; subst h; right
    unfold formatTwitterResult
    cases d.data <;> rfl
  · unfold formatGithubResult at h
    split at h
    · cases hd : d.items with
      | nil => rw [hd] at h; cases h
      | cons item rest =>
          rw [hd] at h; injection h with h; subst h; right; rfl
    · injection h with h; subst h; right; rfl
  · injection h with h; subst h; right; rfl
  · injection h with h; subst h; right; rfl
  · injection h with h; subst h; left; rfl

theorem formatSearchResult_ok_status {p : String} {d : PlatformData} {q t : String}
    {r : SearchResult} (h : formatSearchResult p d q t = Except.ok r) :
    r.status = ResultStatus.found ∨ r.status = ResultStatus.notFound := by
  unfold formatSearchResult at h
  split at h
  · injection h with h; subst h
    unfold formatTruecallerResult
    dsimp only
    split <;> simp
  · injection h with h; subst h
    unfold formatTwitterResult
    cases d.data <;> simp
  · unfold formatGithubResult at h
    split at h
    · cases hd : d.items with
      | nil => rw [hd] at h; cases h
      | cons item rest => rw [hd] at h; injection h with h; subst h; simp
    · injection h with h; subst h; simp
  · injection h with h; subst h
    unfold formatWhatsAppResult
    dsimp only
    split <;> simp
  · injection h with h; subst h
    unfold formatUPIResult
    dsimp only
    split <;> simp
  · injection h with h; subst h
    unfold formatDefaultResult
    dsimp only
    split <;> simp

theorem searchPlatformTry_ok_platform {p q t : String} {o : FetchOutcome}
    {r : SearchResult} (h : searchPlatformTry p q t o = Except.ok r) :
    r.platform = p ∨ r.platform = displayName p := by
  cases o with
  | fetchError msg => simp [searchPlatformTry] at h
  | httpResponse ok status body =>
      cases ok with
      | false => simp [searchPlatformTry] at h
      | true =>
          cases body with
          | error msg => simp [searchPlatformTry] at h
          | ok d =>
              simp only [searchPlatformTry, Bool.not_true, Bool.false_eq_true,
                if_false] at h
              exact formatSearchResult_ok_platform h

theorem searchPlatformTry_ok_status {p q t : String} {o : FetchOutcome}
    {r : SearchResult} (h : searchPlatformTry p q t o = Except.ok r) :
    r.status = ResultStatus.found ∨ r.status = ResultStatus.notFound := by
  cases o with
  | fetchError msg => simp [searchPlatformTry] at h
  | httpResponse ok status body =>
      cases ok with
      | false => simp [searchPlatformTry] at h
      | true =>
          cases body with
          | error msg => simp [searchPlatformTry] at h
          | ok d =>
              simp only [searchPlatformTry, Bool.not_true, Bool.false_eq_true,
                if_false] at h
              exact formatSearchResult_ok_status h

theorem platformResult_platform (p q t : String) (o : FetchOutcome) :
    (platformResult p q t o).platform = p ∨
      (platformResult p q t o).platform = displayName p := by
  unfold platformResult
  cases htry : searchPlatformTry p q t o with
  | ok r => exact searchPlatformTry_ok_platform htry
  | error msg => left; rfl

theorem platformResult_error_shape (p q t : String) (o : FetchOutcome)
    (h : (platformResult p q t o).status = ResultStatus.error) :
    (platformResult p q t o).content = none ∧
      ∃ msg, (platformResult p q t o).description = "Error: " ++ msg := by
  unfold platformResult at h ⊢
  cases htry : searchPlatformTry p q t o with
  | ok r =>
      rw [htry] at h
      rcases searchPlatformTry_ok_status htry with h1 | h1 <;> simp [h1] at h
  | error msg =>
      exact ⟨rfl, msg, rfl⟩

theorem platformResult_unknown (p q t : String) :
    platformResult p q t unknownPlatformOutcome =
      { platform := p, status := ResultStatus.error, url := none,
        description := "Error: HTTP error! status: 500", content := none } := rfl

theorem runResults_mem_shape (q t : String) (env : Nat → FetchOutcome)
    (ps : List String) (i : Nat) :
    ∀ r ∈ runResults q t env ps i, r.status = ResultStatus.error →
      r.content = none ∧ ∃ msg, r.description = "Error: " ++ msg := by
  induction ps generalizing i with
  | nil => intro r hr; simp [runResults] at hr
  | cons p rest ih =>
      intro r hr herr
      simp only [runResults, List.mem_cons] at hr
      rcases hr with hr | hr
      · subst hr; exact platformResult_error_shape p q t (env i) herr
      · exact ih (i + 1) r hr herr

/-- C1: for every valid query and platform list, `performSearch` returns
normally with exactly one result entry per requested platform
(`results.length = platforms.length`) and, at completion, the
`completedSearches` counter equals the platform count. -/
theorem performSearch_one_result_per_platform (st : EngineState) (q t : String)
    (ps : List String) (env : Nat → FetchOutcome)
    (hq : jsTrim q ≠ "") (ht : t ∈ validTypes) :
    ∃ st' evs res,
      performSearch st q t ps env = (st', evs, Except.ok res) ∧
      res.length = ps.length ∧ st'.completedSearches = ps.length := by
  refine ⟨_, _, _, performSearch_run_eq st q t ps env hq ht, ?_, rfl⟩
  exact runResults_length q t env ps 0

/-- Witness for C1: a concrete three-platform run. -/
theorem performSearch_one_result_per_platform_witness :
    jsTrim "octocat" ≠ "" ∧ "username" ∈ validTypes ∧
    ∃ st' evs res,
      performSearch engineInit "octocat" "username"
          ["github", "reddit", "unknown-platform"] envMixed = (st', evs, Except.ok res) ∧
      res.length = (["github", "reddit", "unknown-platform"] : List String).length ∧
      st'.completedSearches = (["github", "reddit", "unknown-platform"] : List String).length :=
  ⟨by decide, by decide,
    performSearch_one_result_per_platform engineInit "octocat" "username"
      ["github", "reddit", "unknown-platform"] envMixed (by decide) (by decide)⟩

/-- C2 counterexample: with the invalid email `"not-an-email"`,
`performSearch` does not abort — it completes normally with one result and
its trace contains the GitHub adapter call — even though the engine's own
(uncalled) `validateSearchInput` rejects exactly this query. -/
theorem performSearch_format_validation_cex :
    (performSearch engineInit "not-an-email" "email" ["github"] envGithubFound).2.2.toOption.map
        List.length = some 1 ∧
    Event.adapterCall "github" ∈
      (performSearch engineInit "not-an-email" "email" ["github"] envGithubFound).2.1 ∧
    validateSearchInput "not-an-email" "email" = Except.error "Invalid email format" :=
  ⟨by decide, by decide, by decide⟩

/-- C2 (amended): `performSearch` throws before any adapter is invoked
exactly when the query is empty or whitespace-only, or the search type is
not one of `email`/`phone`/`username`/`name`; on such an abort the event
trace is empty (no adapter call was issued).  The per-type format checks
of `validateSearchInput` are never invoked by `performSearch`. -/
theorem performSearch_abort_iff (st : EngineState) (q t : String)
    (ps : List String) (env : Nat → FetchOutcome) :
    ((∃ msg, (performSearch st q t ps env).2.2 = Except.error msg) ↔
      (jsTrim q = "" ∨ ¬ t ∈ validTypes)) ∧
    (∀ msg, (performSearch st q t ps env).2.2 = Except.error msg →
      (performSearch st q t ps env).2.1 = []) := by
  by_cases h1 : q = "" ∨ jsTrim q = ""
  · have htrim : jsTrim q = "" := by
      rcases h1 with h | h
      · subst h; rfl
      · exact h
    refine ⟨⟨fun _ => Or.inl htrim,
      fun _ => ⟨"Search query cannot be empty", by simp [performSearch, if_pos h1]⟩⟩, ?_⟩
    intro msg _
    simp [performSearch, if_pos h1]
  · by_cases h2 : t = "" ∨ ¬ t ∈ validTypes
    · have hmem : ¬ t ∈ validTypes := by
        rcases h2 with h | h
        · subst h; decide
        · exact h
      refine ⟨⟨fun _ => Or.inr hmem,
        fun _ => ⟨"Invalid search type", by simp [performSearch, if_neg h1, if_pos h2]⟩⟩, ?_⟩
      intro msg _
      simp [performSearch, if_neg h1, if_pos h2]
    · push_neg at h1 h2
      rw [performSearch_run_eq st q t ps env h1.2 h2.2]
      constructor
      · constructor
        · rintro ⟨msg, hmsg⟩; cases hmsg
        · rintro (h | h)
          · exact absurd h h1.2
          · exact absurd h2.2 h
      · intro msg hmsg; cases hmsg

/-- Witness for C2 (amended): the empty query aborts with an empty trace. -/
theorem performSearch_abort_iff_witness :
    (∃ msg, (performSearch engineInit "" "email" ["github"] envGithubFound).2.2 =
      Except.error msg) ∧
    (performSearch engineInit "" "email" ["github"] envGithubFound).2.1 = [] := by
  have h := performSearch_abort_iff engineInit "" "email" ["github"] envGithubFound
  obtain ⟨msg, hmsg⟩ := h.1.mpr (Or.inl rfl)
  exact ⟨⟨msg, hmsg⟩, h.2 msg hmsg⟩

/-- C3 counterexample: for `platforms = ["twitter"]` with a successful
Twitter response, the recorded entry's platform field is the display name
`"Twitter"`, not the supplied identifier `"twitter"`. -/
theorem performSearch_platform_label_cex :
    (performSearch engineInit "jack" "username" ["twitter"] envTwitterFound).2.2.toOption.map
        (fun rs => rs.map SearchResult.platform) = some ["Twitter"] ∧
    ("Twitter" : String) ≠ "twitter" :=
  ⟨by decide, by decide⟩

/-- C3 (amended): results are appended in exact input order, one per
platform; the i-th entry's platform field is the i-th supplied identifier
itself for error results and default-formatted platforms, and the
canonical display name (`displayName`) for successfully formatted
truecaller/twitter/github/whatsapp/upi responses. -/
theorem performSearch_result_order (st : EngineState) (q t : String)
    (ps : List String) (env : Nat → FetchOutcome)
    (hq : jsTrim q ≠ "") (ht : t ∈ validTypes) :
    ∃ st' evs res,
      performSearch st q t ps env = (st', evs, Except.ok res) ∧
      res.length = ps.length ∧
      ∀ (i : Nat) (p : String) (r : SearchResult), ps[i]? = some p → res[i]? = some r →
        r.platform = p ∨ r.platform = displayName p := by
  refine ⟨_, _, _, performSearch_run_eq st q t ps env hq ht,
    runResults_length q t env ps 0, ?_⟩
  intro i p r hp hr
  rw [runResults_getElem, hp] at hr
  simp only [Option.map_some', Option.some_inj] at hr
  rw [← hr]
  exact platformResult_platform p q t (env (0 + i))

/-- Witness for C3 (amended): concrete single-platform run. -/
theorem performSearch_result_order_witness :
    jsTrim "jack" ≠ "" ∧ "username" ∈ validTypes ∧
    ∃ st' evs res,
      performSearch engineInit "jack" "username" ["twitter"] envTwitterFound =
        (st', evs, Except.ok res) ∧
      res.length = (["twitter"] : List String).length ∧
      ∀ (i : Nat) (p : String) (r : SearchResult),
          (["twitter"] : List String)[i]? = some p → res[i]? = some r →
        r.platform = p ∨ r.platform = displayName p :=
  ⟨by decide, by decide,
    performSearch_result_order engineInit "jack" "username" ["twitter"] envTwitterFound
      (by decide) (by decide)⟩

/-- C4 counterexample: for the single unknown platform
`"unknown-platform"`, the recorded description is the client-side HTTP 500
message, not `"platform not supported"`, and the Pacer delay does run for
that platform (one delay event in the trace). -/
theorem performSearch_unknown_platform_cex :
    (performSearch engineInit "octocat" "username" ["unknown-platform"] envUnknown).2.2.toOption.map
        (fun rs => rs.map SearchResult.description) =
      some ["Error: HTTP error! status: 500"] ∧
    ("Error: HTTP error! status: 500" : String) ≠ "platform not supported" ∧
    ((performSearch engineInit "octocat" "username" ["unknown-platform"] envUnknown).2.1.filter
        isDelay).length = 1 :=
  ⟨by decide, by decide, by decide⟩

/-- C4 (amended): a platform whose key the backend dispatcher does not
support yields a result-level error — status `error`, description
`"Error: HTTP error! status: 500"` (the client surfaces the 500 reply,
not the server's "platform not supported" message) — the run continues
with every platform still producing its entry, and the Pacer delay runs
for the unknown platform exactly as for any other (one delay per
platform). -/
theorem performSearch_unknown_platform (st : EngineState) (q t : String)
    (ps : List String) (env : Nat → FetchOutcome)
    (hq : jsTrim q ≠ "") (ht : t ∈ validTypes) :
    ∀ i p, ps[i]? = some p → env i = unknownPlatformOutcome →
      ∃ st' evs res,
        performSearch st q t ps env = (st', evs, Except.ok res) ∧
        res.length = ps.length ∧
        res[i]? = some { platform := p, status := ResultStatus.error, url := none,
                         description := "Error: HTTP error! status: 500", content := none } ∧
        (evs.filter isDelay).length = ps.length := by
  intro i p hp henv
  refine ⟨_, _, _, performSearch_run_eq st q t ps env hq ht,
    runResults_length q t env ps 0, ?_, ?_⟩
  · rw [runResults_getElem, hp]
    simp [henv, platformResult_unknown]
  · simp [List.filter_append, List.filter_cons, runTrace_delay_count]

/-- Witness for C4 (amended): `"unknown-platform"` sandwiched between two
known platforms. -/
theorem performSearch_unknown_platform_witness :
    (["github", "unknown-platform", "reddit"] : List String)[1]? = some "unknown-platform" ∧
    envWithUnknown 1 = unknownPlatformOutcome ∧
    ∃ st' evs res,
      performSearch engineInit "octocat" "username"
          ["github", "unknown-platform", "reddit"] envWithUnknown = (st', evs, Except.ok res) ∧
      res.length = (["github", "unknown-platform", "reddit"] : List String).length ∧
      res[1]? = some { platform := "unknown-platform", status := ResultStatus.error,
                       url := none, description := "Error: HTTP error! status: 500",
                       content := none } ∧
      (evs.filter isDelay).length = (["github", "unknown-platform", "reddit"] : List String).length :=
  ⟨by decide, rfl,
    performSearch_unknown_platform engineInit "octocat" "username"
      ["github", "unknown-platform", "reddit"] envWithUnknown (by decide) (by decide)
      1 "unknown-platform" (by decide) rfl⟩

/-- C5: `searchPlatform` never lets a fault escape: it always returns
normally, appending exactly one result, and whenever its `try` body fails
with message `msg` the appended (and returned) result is the catch block's
error record with status `error`, description `"Error: " ++ msg` and no
content. -/
theorem searchPlatform_fault_isolation (st : EngineState) (p q t : String)
    (o : FetchOutcome) :
    (searchPlatform st p q t o).1.results = st.results ++ [(searchPlatform st p q t o).2.2] ∧
    ∀ msg, searchPlatformTry p q t o = Except.error msg →
      (searchPlatform st p q t o).2.2 =
        { platform := p, status := ResultStatus.error, url := none,
          description := "Error: " ++ msg, content := none } := by
  refine ⟨rfl, ?_⟩
  intro msg h
  show platformResult p q t o = _
  unfold platformResult
  rw [h]

/-- Witness for C5: a rejected fetch is converted into an error result. -/
theorem searchPlatform_fault_isolation_witness :
    (searchPlatform engineInit "github" "octocat" "username"
        (FetchOutcome.fetchError "Failed to fetch")).2.2 =
      { platform := "github", status := ResultStatus.error, url := none,
        description := "Error: Failed to fetch", content := none } :=
  (searchPlatform_fault_isolation engineInit "github" "octocat" "username"
      (FetchOutcome.fetchError "Failed to fetch")).2 "Failed to fetch" rfl

/-- C6 counterexample: in a single-platform run the fixed delay does run
after the last (and only) adapter call — the claim's "does not run after
the last one" fails — while indeed no delay precedes the first call. -/
theorem performSearch_trailing_delay_cex :
    delaysAfterLastAdapterCall
        (performSearch engineInit "octocat" "username" ["github"] envGithubFound).2.1 = 1 ∧
    delaysBeforeFirstAdapterCall
        (performSearch engineInit "octocat" "username" ["github"] envGithubFound).2.1 = 0 :=
  ⟨by decide, by decide⟩

/-- C6 (amended): in every valid run the pacing-relevant events strictly
alternate adapter-call, delay, adapter-call, delay, ...: the fixed delay
runs exactly once after each adapter call — between consecutive calls and
also once after the last call — and never before the first adapter call. -/
theorem performSearch_pacing (st : EngineState) (q t : String)
    (ps : List String) (env : Nat → FetchOutcome)
    (hq : jsTrim q ≠ "") (ht : t ∈ validTypes) :
    (performSearch st q t ps env).2.1.filter isPaced = pacedCalls ps := by
  rw [performSearch_run_eq st q t ps env hq ht]
  simp [List.filter_append, List.filter_cons, runTrace_filter_paced]

/-- Witness for C6 (amended): two platforms give call, delay, call, delay. -/
theorem performSearch_pacing_witness :
    (performSearch engineInit "octocat" "username" ["github", "reddit"]
        envGithubFound).2.1.filter isPaced =
      [Event.adapterCall "github", Event.delay 1000,
       Event.adapterCall "reddit", Event.delay 1000] := by
  rw [performSearch_pacing engineInit "octocat" "username" ["github", "reddit"]
    envGithubFound (by decide) (by decide)]
  rfl

theorem progressPercents_append (l₁ l₂ : List Event) :
    progressPercents (l₁ ++ l₂) = progressPercents l₁ ++ progressPercents l₂ := by
  simp [progressPercents, List.filterMap_append]

theorem progressPercents_progress_cons (m : String) (r : Rat) (l : List Event) :
    progressPercents (Event.progress m r :: l) = r :: progressPercents l := by
  simp [progressPercents, List.filterMap_cons]

/-- C7: in every valid run the first emitted event is
`("Initializing search...", 0)`, the last is `("Search completed!", 100)`,
and the emitted percent values are non-decreasing. -/
theorem performSearch_progress_monotone (st : EngineState) (q t : String)
    (ps : List String) (env : Nat → FetchOutcome)
    (hq : jsTrim q ≠ "") (ht : t ∈ validTypes) :
    (performSearch st q t ps env).2.1.head? =
      some (Event.progress "Initializing search..." 0) ∧
    (performSearch st q t ps env).2.1.getLast? =
      some (Event.progress "Search completed!" 100) ∧
    List.Chain' (fun a b => a ≤ b)
      (progressPercents (performSearch st q t ps env).2.1) := by
  rw [performSearch_run_eq st q t ps env hq ht]
  dsimp only
  refine ⟨rfl, ?_, ?_⟩
  · exact List.getLast?_concat _
  · rw [progressPercents_append, progressPercents_progress_cons,
      progressPercents_progress_cons, runTrace_percents]
    have hnil : progressPercents [] = ([] : List Rat) := rfl
    rw [hnil, List.cons_append]
    refine List.chain'_cons'.mpr ⟨?_, percList_chain_append ps 0 ps.length (by omega)⟩
    intro y hy
    cases ps with
    | nil =>
        simp [percList] at hy
        subst hy
        norm_num
    | cons a l =>
        simp [percList, pct_zero] at hy
        subst hy
        exact le_refl _

/-- Witness for C7: concrete single-platform run. -/
theorem performSearch_progress_monotone_witness :
    (performSearch engineInit "octocat" "username" ["github"] envGithubFound).2.1.head? =
      some (Event.progress "Initializing search..." 0) ∧
    (performSearch engineInit "octocat" "username" ["github"] envGithubFound).2.1.getLast? =
      some (Event.progress "Search completed!" 100) ∧
    List.Chain' (fun a b => a ≤ b)
      (progressPercents
        (performSearch engineInit "octocat" "username" ["github"] envGithubFound).2.1) :=
  performSearch_progress_monotone engineInit "octocat" "username" ["github"]
    envGithubFound (by decide) (by decide)

/-- C8: after a valid run, `getSearchStats` reports `total` equal to the
number of requested platforms, `found` equal to the number of returned
results with status `found`, and `completed` equal to the number of
platforms processed. -/
theorem getSearchStats_after_run (st : EngineState) (q t : String)
    (ps : List String) (env : Nat → FetchOutcome)
    (hq : jsTrim q ≠ "") (ht : t ∈ validTypes) :
    ∃ st' evs res,
      performSearch st q t ps env = (st', evs, Except.ok res) ∧
      getSearchStats st' =
        { total := ps.length,
          found := (res.filter (fun r => r.status == ResultStatus.found)).length,
          completed := ps.length } :=
  ⟨_, _, _, performSearch_run_eq st q t ps env hq ht, rfl⟩

/-- Witness for C8: three platforms with one found, one not-found and one
error give `{total := 3, found := 1, completed := 3}`. -/
theorem getSearchStats_after_run_witness :
    (∃ st' evs res,
      performSearch engineInit "octocat" "username"
          ["github", "reddit", "unknown-platform"] envMixed = (st', evs, Except.ok res) ∧
      getSearchStats st' =
        { total := (["github", "reddit", "unknown-platform"] : List String).length,
          found := (res.filter (fun r => r.status == ResultStatus.found)).length,
          completed := (["github", "reddit", "unknown-platform"] : List String).length }) ∧
    getSearchStats (performSearch engineInit "octocat" "username"
        ["github", "reddit", "unknown-platform"] envMixed).1 =
      { total := 3, found := 1, completed := 3 } :=
  ⟨getSearchStats_after_run engineInit "octocat" "username"
      ["github", "reddit", "unknown-platform"] envMixed (by decide) (by decide),
   by decide⟩

/-- C9: every result record a valid run returns with status `error` has a
description of the form `"Error: " ++ msg` (carrying the failure cause)
and a null content field. -/
theorem performSearch_error_result_shape (st : EngineState) (q t : String)
    (ps : List String) (env : Nat → FetchOutcome)
    (hq : jsTrim q ≠ "") (ht : t ∈ validTypes) :
    ∀ res, (performSearch st q t ps env).2.2 = Except.ok res →
      ∀ r ∈ res, r.status = ResultStatus.error →
        r.content = none ∧ ∃ msg, r.description = "Error: " ++ msg := by
  intro res hres r hr herr
  rw [performSearch_run_eq st q t ps env hq ht] at hres
  simp only [Except.ok.injEq] at hres
  subst hres
  exact runResults_mem_shape q t env ps 0 r hr herr

/-- Witness for C9: the error entry of a concrete unknown-platform run. -/
theorem performSearch_error_result_shape_witness :
    unknownErrorResult.content = none ∧
    ∃ msg, unknownErrorResult.description = "Error: " ++ msg :=
  performSearch_error_result_shape engineInit "octocat" "username" ["unknown-platform"]
    envUnknown (by decide) (by decide) [unknownErrorResult] (by decide)
    unknownErrorResult (by simp) rfl

/-- C10: `performSearch` resets the engine's accumulated state before any
validation or platform work: its entire outcome (final state, trace and
returned results) is independent of the prior engine state, so the
returned list never contains entries of a previous run; and even when
validation throws, the state has already been reset (results emptied,
counters zeroed, total set to the new platform count). -/
theorem performSearch_resets_state (st₁ st₂ : EngineState) (q t : String)
    (ps : List String) (env : Nat → FetchOutcome) :
    performSearch st₁ q t ps env = performSearch st₂ q t ps env ∧
    (jsTrim q = "" →
      performSearch st₁ q t ps env =
        ({ results := [], searchProgress := 0, totalPlatforms := ps.length,
           completedSearches := 0 }, [],
         Except.error "Search query cannot be empty")) := by
  refine ⟨rfl, ?_⟩
  intro h
  unfold performSearch
  rw [if_pos (Or.inr h)]

/-- Witness for C10: a dirty engine and a fresh engine produce identical
outcomes, and a failing validation still leaves the reset state. -/
theorem performSearch_resets_state_witness :
    performSearch dirtyState "" "email" ["github"] envGithubFound =
      performSearch engineInit "" "email" ["github"] envGithubFound ∧
    performSearch dirtyState "" "email" ["github"] envGithubFound =
      ({ results := [], searchProgress := 0,
         totalPlatforms := (["github"] : List String).length,
         completedSearches := 0 }, [], Except.error "Search query cannot be empty") :=
  ⟨(performSearch_resets_state dirtyState engineInit "" "email" ["github"] envGithubFound).1,
   (performSearch_resets_state dirtyState engineInit "" "email" ["github"] envGithubFound).2 rfl⟩
